import Mathlib

/-!
Shallow embedding of the autonomous change-governance core of the
`ai-agent` repository, together with theorems settling the frozen claims.

Covered source:
* `apps/control-plane/src/services/deployment-controller.ts` (change-set lifecycle),
* `apps/control-plane/src/services/policy-engine.ts` (patch simulation; the
  file appears in the source tree as `src/unnamed/part_004`, second document),
* `game/ai/policy_guard.h` / its implementation unit (capability guard,
  policy reload, circuit breaker, audit-failure counting).

Numbers of the TypeScript sources (IEEE doubles) and the C++ `double`
fields are embedded as exact rationals (`ℚ`); `Number.prototype.toFixed(4)`
rounds to the nearest multiple of 10⁻⁴ with ties to the larger value, which
on rationals is `round` (half-up).  Fresh UUID generation
(`simulation_id`, `change_id`) is external randomness and is taken as a
caller-supplied string where a definition needs it.
-/

namespace AiAgent

/-- `Number(x.toFixed(4))`: round to 4 decimal places, ties to the larger value. -/
def toFixed4 (x : ℚ) : ℚ := ((round (x * 10000) : ℤ) : ℚ) / 10000

/-- String prefix test (`value` starts with `p`), on the character lists. -/
def strStartsWith (value : String) (p : String) : Bool :=
  value.data.take p.data.length == p.data

namespace DeploymentController

/-- `AutonomousChangeSet` from `apps/control-plane/src/types.ts`:
change_id, target, diff, risk_score, canary_result ∈ {pending, passed, failed},
promotion_state ∈ {staged, progressive, rolled_back, promoted} (string-typed
in the source). -/
structure AutonomousChangeSet where
  change_id : String
  target : String
  diff : String
  risk_score : ℚ
  canary_result : String
  promotion_state : String
  deriving DecidableEq

/-- `createChangeSet(target, diff, riskScore)`; the fresh `uuidv4()` id is
supplied by the caller (`fresh_id`). -/
def createChangeSet (fresh_id : String) (target : String) (diff : String)
    (riskScore : ℚ) : AutonomousChangeSet :=
  { change_id := fresh_id
    target := target
    diff := diff
    risk_score := riskScore
    canary_result := "pending"
    promotion_state := "staged" }

/-- `evaluateCanary(changeSet)`: canary passes iff `risk_score < 0.8`. -/
def evaluateCanary (changeSet : AutonomousChangeSet) : AutonomousChangeSet :=
  let canaryPassed := changeSet.risk_score < 0.8
  { changeSet with
      canary_result := if canaryPassed then "passed" else "failed"
      promotion_state := if canaryPassed then "progressive" else "rolled_back" }

/-- `promoteChangeSet(changeSet)`: any non-passed canary forces
`rolled_back`; a passed canary promotes. -/
def promoteChangeSet (changeSet : AutonomousChangeSet) : AutonomousChangeSet :=
  if changeSet.canary_result ≠ "passed" then
    { changeSet with promotion_state := "rolled_back" }
  else
    { changeSet with promotion_state := "promoted" }

end DeploymentController

namespace PolicyEngine

/-- The five scoring dimensions (`PolicyScoreDimension` in the types module;
they are exactly the keys of `DIMENSION_WEIGHTS`). -/
inductive PolicyScoreDimension where
  | fairness
  | latency
  | exploit_risk
  | economy_stability
  | reliability
  deriving DecidableEq

/-- `TaskTrace` from the control-plane types module. -/
structure TaskTrace where
  trace_id : String
  goal_id : String
  steps : List String
  tool_calls : List String
  model_calls : List String
  latency_ms : ℚ
  token_cost : ℚ
  outcome : String
  deriving DecidableEq

/-- `PolicyPatchMetadata`: summary, asserted constraint ids, and a partial
map dimension → signed impact (`Partial Record`; absent dimensions mean
zero impact). -/
structure PolicyPatchMetadata where
  summary : String
  asserted_constraint_ids : List String
  objective_impacts : PolicyScoreDimension → Option ℚ

/-- Per-dimension entry of `dimension_scores` (`PolicyDimensionScore`). -/
structure PolicyDimensionScore where
  baseline : ℚ
  patch : ℚ
  delta : ℚ
  weight : ℚ
  deriving DecidableEq

/-- `PolicySimulationResult`; the fresh `uuidv4()` simulation id is
external randomness and is not modelled as a field. -/
structure PolicySimulationResult where
  baseline_score : ℚ
  patch_score : ℚ
  projected_delta : ℚ
  dimension_scores : PolicyScoreDimension → PolicyDimensionScore
  violated_constraints : List String
  blockers : List String
  recommendation : String

/-- `NON_NEGOTIABLE_CONSTRAINTS`. -/
def NON_NEGOTIABLE_CONSTRAINTS : List String :=
  ["safety.no_save_corruption", "product.no_pay_to_win_drift", "fairness.no_hidden_nerfs"]

/-- `MINIMUM_RELEASE_THRESHOLD`. -/
def MINIMUM_RELEASE_THRESHOLD : ℚ := 0.7

/-- `DIMENSION_WEIGHTS`. -/
def DIMENSION_WEIGHTS : PolicyScoreDimension → ℚ
  | .fairness => 0.25
  | .latency => 0.2
  | .exploit_risk => 0.2
  | .economy_stability => 0.2
  | .reliability => 0.15

/-- `Object.keys(DIMENSION_WEIGHTS)` in declaration order. -/
def dimensionKeys : List PolicyScoreDimension :=
  [.fairness, .latency, .exploit_risk, .economy_stability, .reliability]

/-- `clampScore(value)` = `Math.max(0, Math.min(1, value))`. -/
def clampScore (value : ℚ) : ℚ := max 0 (min 1 value)

/-- `toFixedScore(value)` = `Number(clampScore(value).toFixed(4))`. -/
def toFixedScore (value : ℚ) : ℚ := toFixed4 (clampScore value)

/-- `average(values)`: 0 on the empty list, else the arithmetic mean. -/
def average (values : List ℚ) : ℚ :=
  if values.isEmpty then 0 else values.sum / (values.length : ℚ)

/-- Lower-casing used to model the case-insensitive regex flag. -/
def toLowerStr (s : String) : String := ⟨s.data.map Char.toLower⟩

/-- `sub` occurs as a contiguous substring of `s`. -/
def containsSub (s : String) (sub : String) : Bool :=
  (List.range (s.length + 1)).any fun i => strStartsWith (s.drop i) sub

/-- The dangerous-tool test `/exec|shell|network|write/i.test(tool)`. -/
def isDangerousTool (tool : String) : Bool :=
  let t := toLowerStr tool
  containsSub t ("exec") || containsSub t ("shell") ||
    containsSub t ("network") || containsSub t ("write")

/-- `baselineDimensionScores(traces)`: the optimistic 0.8 default on an
empty history, else the per-dimension averages of the source. -/
def baselineDimensionScores (traces : List TaskTrace) :
    PolicyScoreDimension → ℚ :=
  if traces.isEmpty then fun _ => 0.8 else
  let successRate := average (traces.map fun trace =>
    if trace.outcome = "success" then 1 else
    if trace.outcome = "partial" then 0.5 else 0)
  let latencyScore := average (traces.map fun trace =>
    if trace.latency_ms ≤ 2000 then 1 else
    if trace.latency_ms ≤ 6000 then 0.9 else
    if trace.latency_ms ≤ 15000 then 0.75 else 0.55)
  let exploitRiskScore := average (traces.map fun trace =>
    let dangerousToolWeight : ℚ := (trace.tool_calls.filter isDangerousTool).length
    clampScore (0.95 - dangerousToolWeight * 0.08))
  let economyStabilityScore := average (traces.map fun trace =>
    clampScore (1 - trace.token_cost / 10))
  let reliabilityScore := average (traces.map fun trace =>
    if trace.outcome = "failure" then 0.35 else
    if trace.outcome = "partial" then 0.65 else
    if trace.steps.length > 8 then 0.8 else 0.95)
  let fairnessScore := clampScore (successRate * 0.8 + reliabilityScore * 0.2)
  fun d => match d with
    | .fairness => fairnessScore
    | .latency => latencyScore
    | .exploit_risk => exploitRiskScore
    | .economy_stability => economyStabilityScore
    | .reliability => reliabilityScore

/-- `weightedComposite(scores)`: fold over `Object.keys(DIMENSION_WEIGHTS)`. -/
def weightedComposite (scores : PolicyScoreDimension → ℚ) : ℚ :=
  dimensionKeys.foldl (fun acc dimension => acc + scores dimension * DIMENSION_WEIGHTS dimension) 0

/-- `validateNonNegotiables(policyPatch)`: the non-negotiable ids missing
from the asserted set. -/
def validateNonNegotiables (policyPatch : PolicyPatchMetadata) : List String :=
  NON_NEGOTIABLE_CONSTRAINTS.filter fun constraintId =>
    !(policyPatch.asserted_constraint_ids.contains constraintId)

/-- `computePatchScores(baselineScores, objectiveImpacts)`. -/
def computePatchScores (baselineScores : PolicyScoreDimension → ℚ)
    (objectiveImpacts : PolicyScoreDimension → Option ℚ) :
    PolicyScoreDimension → ℚ :=
  fun dimension => clampScore (baselineScores dimension + (objectiveImpacts dimension).getD 0)

/-- `buildDimensionScores(baselineScores, patchScores)`. -/
def buildDimensionScores (baselineScores : PolicyScoreDimension → ℚ)
    (patchScores : PolicyScoreDimension → ℚ) :
    PolicyScoreDimension → PolicyDimensionScore :=
  fun dimension =>
    let baseline := toFixedScore (baselineScores dimension)
    let patch := toFixedScore (patchScores dimension)
    { baseline := baseline
      patch := patch
      delta := toFixed4 (patch - baseline)
      weight := DIMENSION_WEIGHTS dimension }

/-- `simulatePolicyPatch({policy_patch, traces})`. -/
def simulatePolicyPatch (policy_patch : PolicyPatchMetadata)
    (traces : List TaskTrace) : PolicySimulationResult :=
  let baselineDimension := baselineDimensionScores traces
  let patchDimension := computePatchScores baselineDimension policy_patch.objective_impacts
  let baselineScore := weightedComposite baselineDimension
  let patchScore := weightedComposite patchDimension
  let projectedDelta := toFixed4 (patchScore - baselineScore)
  let violatedConstraints := validateNonNegotiables policy_patch
  let blockers :=
    (if projectedDelta < 0 then ["patch regresses simulated composite score"] else []) ++
    (if patchScore < MINIMUM_RELEASE_THRESHOLD then ["projected score below minimum release threshold"] else []) ++
    (if violatedConstraints.length > 0 then
      ["non-negotiable constraint violations: " ++ String.intercalate (", ") violatedConstraints]
     else [])
  { baseline_score := toFixed4 baselineScore
    patch_score := toFixed4 patchScore
    projected_delta := projectedDelta
    dimension_scores := buildDimensionScores baselineDimension patchDimension
    violated_constraints := violatedConstraints
    blockers := blockers
    recommendation := if blockers.isEmpty then "approve" else "reject" }

end PolicyEngine

namespace GameAi

/-- `ResourceLimits` of `policy_guard.h`, with its C++ default members. -/
structure ResourceLimits where
  max_cpu_percent : Int := 70
  max_ram_mb : Int := 4096
  max_time_seconds : Int := 900
  deriving DecidableEq

/-- `CircuitBreakerConfig` of `policy_guard.h`, with its default members. -/
structure CircuitBreakerConfig where
  max_failed_deployments : Int := 3
  max_regression_threshold : ℚ := 0.05
  emergency_disable_file : String := "logs/.autonomy_disabled"
  deriving DecidableEq

/-- The C++ `ExecutionPolicy` of `policy_guard.h` (the capability policy;
unrelated to the TypeScript type of the same name). -/
structure ExecutionPolicy where
  writable_allow_prefixes : List String := []
  writable_deny_prefixes : List String := []
  allowed_domains : List String := []
  allowed_ports : List Int := []
  limits : ResourceLimits := {}
  circuit_breakers : CircuitBreakerConfig := {}
  deriving DecidableEq

/-- `DeploymentDecision`. -/
structure DeploymentDecision where
  allowed : Bool
  reason : String
  deriving DecidableEq

/-- The whitespace set `" \t\r\n"` used by `Trim`. -/
def isTrimSpace (c : Char) : Bool := c = ' ' || c = '\t' || c = '\r' || c = '\n'

/-- `Trim(s)`: strip leading and trailing `" \t\r\n"` characters. -/
def Trim (s : String) : String :=
  ⟨((s.data.dropWhile isTrimSpace).reverse.dropWhile isTrimSpace).reverse⟩

/-- `StartsWith(value, p)`: `value.size ≥ p.size` and the first
`p.size` characters of `value` equal `p`. -/
def StartsWith (value : String) (p : String) : Bool := strStartsWith value p

/-- Value of the leading run of decimal digits; `none` when there is none. -/
def digitsVal (cs : List Char) : Option Nat :=
  let ds := cs.takeWhile Char.isDigit
  if ds.isEmpty then none
  else some (ds.foldl (fun a c => a * 10 + (c.toNat - 48)) 0)

/-- `std::stoi`: skip whitespace, optional sign, then at least one digit
(trailing junk ignored); `none` models the `std::invalid_argument` throw.
Out-of-range values are not modelled. -/
def stoi (s : String) : Option Int :=
  match s.data.dropWhile isTrimSpace with
  | '-' :: rest => (digitsVal rest).map (fun n => -(n : Int))
  | '+' :: rest => (digitsVal rest).map (fun n => (n : Int))
  | cs => (digitsVal cs).map (fun n => (n : Int))

/-- Unsigned part of `std::stod` on plain fixed-point notation: digits, an
optional point, fraction digits; at least one digit overall.  Exponent and
hex forms do not occur in policy files and are not modelled. -/
def stodCore (cs : List Char) : Option ℚ :=
  let intPart := cs.takeWhile Char.isDigit
  let rest := cs.dropWhile Char.isDigit
  let fracPart := match rest with
    | '.' :: r => r.takeWhile Char.isDigit
    | _ => []
  if intPart.isEmpty && fracPart.isEmpty then none
  else
    let iv : Nat := intPart.foldl (fun a c => a * 10 + (c.toNat - 48)) 0
    let fv : Nat := fracPart.foldl (fun a c => a * 10 + (c.toNat - 48)) 0
    some ((iv : ℚ) + (fv : ℚ) / ((10 : ℚ) ^ fracPart.length))

/-- `std::stod`; `none` models the throw on non-numeric input. -/
def stod (s : String) : Option ℚ :=
  match s.data.dropWhile isTrimSpace with
  | '-' :: rest => (stodCore rest).map (fun q => -q)
  | '+' :: rest => stodCore rest
  | cs => stodCore cs

/-- The `Context` enum local to `ReloadPolicy`. -/
inductive Context where
  | none
  | allowWritable
  | denyWritable
  | allowDomain
  | allowPorts
  deriving DecidableEq

/-- Loop state of `ReloadPolicy`: the policy being built (`policy_`) plus
the parse-context variables. -/
structure ParseState where
  policy : ExecutionPolicy
  context : Context
  in_ai_writable : Bool
  in_network_allow : Bool
  deriving DecidableEq

/-- State right after `policy_ = ExecutionPolicy{}` and the local
initializers. -/
def initialParseState : ParseState :=
  { policy := {}, context := .none, in_ai_writable := false, in_network_allow := false }

/-- One iteration of the `while (std::getline(in, line))` loop.  The error
case models the `std::invalid_argument` thrown by `std::stoi`/`std::stod`
on a non-numeric value; it carries the partially populated policy held in
`policy_` at that moment. -/
def processLine (st : ParseState) (line : String) : Except ExecutionPolicy ParseState :=
  let trimmed := Trim line
  if trimmed = "" || StartsWith trimmed ("#") then .ok st
  else if trimmed = "autonomy:" || trimmed = "network:" || trimmed = "resource_limits:" ||
      trimmed = "cpu:" || trimmed = "memory:" || trimmed = "execution:" ||
      trimmed = "circuit_breakers:" then
    .ok { st with
      context := .none
      in_ai_writable := false
      in_network_allow := if trimmed ≠ "network:" then false else st.in_network_allow }
  else if trimmed = "ai_writable:" then
    .ok { st with in_ai_writable := true, context := .none }
  else if trimmed = "allow:" then
    if st.in_ai_writable then .ok { st with context := .allowWritable }
    else .ok { st with in_network_allow := true }
  else if trimmed = "deny:" then
    if st.in_ai_writable then .ok { st with context := .denyWritable }
    else .ok { st with in_network_allow := false }
  else if trimmed = "domains:" then
    .ok { st with context := if st.in_network_allow then .allowDomain else .none }
  else if trimmed = "ports:" then
    .ok { st with context := if st.in_network_allow then .allowPorts else .none }
  else if StartsWith trimmed ("- ") then
    let item := Trim (trimmed.drop 2)
    match st.context with
    | .allowWritable =>
      .ok { st with policy := { st.policy with
        writable_allow_prefixes := st.policy.writable_allow_prefixes ++ [item] } }
    | .denyWritable =>
      .ok { st with policy := { st.policy with
        writable_deny_prefixes := st.policy.writable_deny_prefixes ++ [item] } }
    | .allowDomain =>
      if item ≠ "" ∧ item ≠ "\"*\"" then
        .ok { st with policy := { st.policy with
          allowed_domains := st.policy.allowed_domains ++ [item] } }
      else .ok st
    | .allowPorts =>
      match stoi item with
      | some n => .ok { st with policy := { st.policy with
          allowed_ports := st.policy.allowed_ports ++ [n] } }
      | none => .error st.policy
    | _ => .ok st
  else if StartsWith trimmed ("max_percent:") then
    match stoi (Trim (trimmed.drop ("max_percent:".length))) with
    | some n => .ok { st with policy := { st.policy with
        limits := { st.policy.limits with max_cpu_percent := n } } }
    | none => .error st.policy
  else if StartsWith trimmed ("max_ram_mb:") then
    match stoi (Trim (trimmed.drop ("max_ram_mb:".length))) with
    | some n => .ok { st with policy := { st.policy with
        limits := { st.policy.limits with max_ram_mb := n } } }
    | none => .error st.policy
  else if StartsWith trimmed ("max_time_seconds:") then
    match stoi (Trim (trimmed.drop ("max_time_seconds:".length))) with
    | some n => .ok { st with policy := { st.policy with
        limits := { st.policy.limits with max_time_seconds := n } } }
    | none => .error st.policy
  else if StartsWith trimmed ("max_failed_deployments:") then
    match stoi (Trim (trimmed.drop ("max_failed_deployments:".length))) with
    | some n => .ok { st with policy := { st.policy with
        circuit_breakers := { st.policy.circuit_breakers with max_failed_deployments := n } } }
    | none => .error st.policy
  else if StartsWith trimmed ("max_regression_threshold:") then
    match stod (Trim (trimmed.drop ("max_regression_threshold:".length))) with
    | some q => .ok { st with policy := { st.policy with
        circuit_breakers := { st.policy.circuit_breakers with max_regression_threshold := q } } }
    | none => .error st.policy
  else if StartsWith trimmed ("emergency_disable_file:") then
    .ok { st with policy := { st.policy with
      circuit_breakers := { st.policy.circuit_breakers with
        emergency_disable_file := Trim (trimmed.drop ("emergency_disable_file:".length)) } } }
  else .ok st

/-- The whole line loop of `ReloadPolicy`. -/
def runParse (lines : List String) : Except ExecutionPolicy ParseState :=
  List.foldlM processLine initialParseState lines

/-- Allow-prefixes installed when the parsed allow-list came out empty. -/
def defaultWritableAllowPrefixes : List String :=
  ["game/ai/", "policies/", "logs/", "tools/"]

/-- How a `ReloadPolicy()` call ends: a normal `return b`, or an escaped
`std::invalid_argument` exception. -/
inductive ReloadResult where
  | returned (b : Bool)
  | threw
  deriving DecidableEq

/-- `ReloadPolicy()` as a transformer of the guard's `policy_` field.
`old` is the previously loaded policy; `source` is the policy file as a
line list, `none` when `std::ifstream` cannot open it.  The result pairs
the call outcome with the `policy_` field after the call. -/
def ReloadPolicy (old : ExecutionPolicy) (source : Option (List String)) :
    ReloadResult × ExecutionPolicy :=
  match source with
  | none => (.returned false, old)
  | some lines =>
    match runParse lines with
    | .error pol => (.threw, pol)
    | .ok st =>
      if st.policy.writable_allow_prefixes.isEmpty then
        (.returned true,
          { st.policy with writable_allow_prefixes := defaultWritableAllowPrefixes })
      else (.returned true, st.policy)

/-- `IsWritablePathAllowed`: `ok` when allowed, `error reason` when not.
Paths are taken in their `generic_string()` form. -/
def IsWritablePathAllowed (policy : ExecutionPolicy) (path : String) :
    Except String Unit :=
  if policy.writable_deny_prefixes.any (fun deny => StartsWith path deny) then
    .error ("write denied for path: " ++ path)
  else if policy.writable_allow_prefixes.any (fun allow => StartsWith path allow) then
    .ok ()
  else
    .error ("write outside allowed scope: " ++ path)

/-- `IsNetworkAllowed`. -/
def IsNetworkAllowed (policy : ExecutionPolicy) (domain : Option String)
    (port : Int) : Except String Unit :=
  match domain with
  | none => .ok ()
  | some d =>
    if !(policy.allowed_domains.contains d) then
      .error ("domain not allowed: " ++ d)
    else if !(policy.allowed_ports.contains port) then
      .error ("port not allowed: " ++ toString port)
    else .ok ()

/-- `AreResourcesAllowed`. -/
def AreResourcesAllowed (policy : ExecutionPolicy) (cpu_percent : Int)
    (ram_mb : Int) (runtime_seconds : Int) : Except String Unit :=
  if cpu_percent > policy.limits.max_cpu_percent then
    .error ("cpu request exceeds max policy")
  else if ram_mb > policy.limits.max_ram_mb then
    .error ("ram request exceeds max policy")
  else if runtime_seconds > policy.limits.max_time_seconds then
    .error ("runtime request exceeds max policy")
  else .ok ()

/-- `ChangeAction`. -/
inductive ChangeAction where
  | proposed
  | applied
  | reverted
  deriving DecidableEq

/-- One audit-ledger record as written by `Audit` (the timestamp carries no
decision weight and is omitted).  `success` is the `"success"` field that
`RecordApplied` writes; the other record kinds never write it and default
to `true` here. -/
structure AuditEntry where
  action : ChangeAction
  change_id : String
  summary : String
  success : Bool := true
  reason : String := ""
  deriving DecidableEq

/-- `CountRecentFailedDeployments()`: 0 when the audit log cannot be
opened, else the number of `applied` records with success=false across the
whole ledger.  (The C++ scans the serialized lines for the substrings
`"action":"applied"` and `"success":"false"` together; on a ledger written
by `Audit` whose field values do not themselves contain those key texts,
that is exactly this count.) -/
def CountRecentFailedDeployments (ledger : Option (List AuditEntry)) : Nat :=
  match ledger with
  | none => 0
  | some entries =>
    (entries.filter (fun e =>
      e.action == ChangeAction.applied && e.success == false)).length

/-- `std::filesystem::exists` over an explicit list of existing files; the
empty path never exists. -/
def fileExists (fs : List String) (p : String) : Bool :=
  (p != "") && fs.contains p

/-- `IsCircuitBreakerOpen(regression_score)`: `some reason` when open,
`none` when closed.  `fs` lists the existing files, `ledger` is the audit
log contents (`none` when unreadable). -/
def IsCircuitBreakerOpen (policy : ExecutionPolicy) (fs : List String)
    (ledger : Option (List AuditEntry)) (regression_score : ℚ) : Option String :=
  if (policy.circuit_breakers.emergency_disable_file != "") &&
      fileExists fs policy.circuit_breakers.emergency_disable_file then
    some ("autonomy disabled by local emergency switch")
  else if (CountRecentFailedDeployments ledger : Int) ≥
      policy.circuit_breakers.max_failed_deployments then
    some ("circuit breaker open: too many failed deployments")
  else if regression_score > policy.circuit_breakers.max_regression_threshold then
    some ("circuit breaker open: regression threshold exceeded")
  else none

/-- `EnforceBeforePatchDeployment`: ordered short-circuit chain of the four
checks, first failure wins. -/
def EnforceBeforePatchDeployment (policy : ExecutionPolicy)
    (touched_files : List String) (outbound_domain : Option String)
    (outbound_port : Int) (requested_cpu_percent : Int) (requested_ram_mb : Int)
    (requested_runtime_seconds : Int) (regression_score : ℚ)
    (fs : List String) (ledger : Option (List AuditEntry)) : DeploymentDecision :=
  match touched_files.findSome? (fun path =>
      match IsWritablePathAllowed policy path with
      | .error r => some r
      | .ok _ => none) with
  | some r => { allowed := false, reason := r }
  | none =>
    match IsNetworkAllowed policy outbound_domain outbound_port with
    | .error r => { allowed := false, reason := r }
    | .ok _ =>
      match AreResourcesAllowed policy requested_cpu_percent requested_ram_mb
          requested_runtime_seconds with
      | .error r => { allowed := false, reason := r }
      | .ok _ =>
        match IsCircuitBreakerOpen policy fs ledger regression_score with
        | some r => { allowed := false, reason := r }
        | none => { allowed := true, reason := "allowed" }

end GameAi

end AiAgent

open AiAgent
open AiAgent.DeploymentController

/-- C6: `evaluateCanary` yields canary_result "passed" and promotion_state
"progressive" iff `risk_score < 0.80` (so risk_score = 0.80 exactly yields
"failed" and "rolled_back"), and the assigned outcome depends only on
`risk_score`. -/
theorem C6_evaluateCanary_strict_boundary (cs : AutonomousChangeSet) :
    (((evaluateCanary cs).canary_result = "passed" ∧
      (evaluateCanary cs).promotion_state = "progressive") ↔ cs.risk_score < 0.8) ∧
    (¬ cs.risk_score < 0.8 →
      (evaluateCanary cs).canary_result = "failed" ∧
      (evaluateCanary cs).promotion_state = "rolled_back") ∧
    (∀ cs₂ : AutonomousChangeSet, cs.risk_score = cs₂.risk_score →
      (evaluateCanary cs).canary_result = (evaluateCanary cs₂).canary_result ∧
      (evaluateCanary cs).promotion_state = (evaluateCanary cs₂).promotion_state) := by
  refine ⟨?_, ?_, ?_⟩
  · by_cases h : cs.risk_score < 0.8 <;> simp [evaluateCanary, h]
  · intro h
    simp [evaluateCanary, h]
  · intro cs₂ he
    by_cases h : cs.risk_score < 0.8 <;>
      simp [evaluateCanary, he ▸ h, he]

/-- Witness for C6 at risk_score = 0.8: the canary fails and rolls back. -/
theorem C6_evaluateCanary_strict_boundary_witness :
    (evaluateCanary
      { change_id := "c1", target := "runtime-plane", diff := "d",
        risk_score := 0.8, canary_result := "pending",
        promotion_state := "staged" }).canary_result = "failed" ∧
    (evaluateCanary
      { change_id := "c1", target := "runtime-plane", diff := "d",
        risk_score := 0.8, canary_result := "pending",
        promotion_state := "staged" }).promotion_state = "rolled_back" :=
  (C6_evaluateCanary_strict_boundary _).2.1 (by norm_num)

/-- C7: `promoteChangeSet` forces promotion_state "rolled_back" whenever
canary_result is not "passed" (in particular on "pending" and "failed"),
regardless of any other field; on "passed" it sets "promoted"; all fields
other than promotion_state are untouched in both cases. -/
theorem C7_promoteChangeSet_rollback_safety_net (cs : AutonomousChangeSet) :
    (cs.canary_result ≠ "passed" →
      promoteChangeSet cs = { cs with promotion_state := "rolled_back" }) ∧
    (cs.canary_result = "passed" →
      promoteChangeSet cs = { cs with promotion_state := "promoted" }) := by
  constructor
  · intro h
    simp [promoteChangeSet, h]
  · intro h
    simp [promoteChangeSet, h]

/-- Witness for C7: a failed canary with low risk_score still rolls back,
with every other field intact. -/
theorem C7_promoteChangeSet_rollback_safety_net_witness :
    promoteChangeSet
      { change_id := "c2", target := "security-plane", diff := "d",
        risk_score := 0.1, canary_result := "failed",
        promotion_state := "progressive" } =
    { change_id := "c2", target := "security-plane", diff := "d",
      risk_score := 0.1, canary_result := "failed",
      promotion_state := "rolled_back" } :=
  (C7_promoteChangeSet_rollback_safety_net _).1 (by decide)

open AiAgent.PolicyEngine

/-- The result record of `simulatePolicyPatch` unfolded field-wise. -/
theorem simulatePolicyPatch_violated (policy_patch : PolicyPatchMetadata)
    (traces : List TaskTrace) :
    (simulatePolicyPatch policy_patch traces).violated_constraints =
      validateNonNegotiables policy_patch := rfl

/-- The blockers list of `simulatePolicyPatch`, in push order. -/
theorem simulatePolicyPatch_blockers (policy_patch : PolicyPatchMetadata)
    (traces : List TaskTrace) :
    (simulatePolicyPatch policy_patch traces).blockers =
      (if (simulatePolicyPatch policy_patch traces).projected_delta < 0 then
        ["patch regresses simulated composite score"] else []) ++
      (if weightedComposite (computePatchScores (baselineDimensionScores traces)
            policy_patch.objective_impacts) < MINIMUM_RELEASE_THRESHOLD then
        ["projected score below minimum release threshold"] else []) ++
      (if (validateNonNegotiables policy_patch).length > 0 then
        ["non-negotiable constraint violations: " ++
          String.intercalate (", ") (validateNonNegotiables policy_patch)]
       else []) := rfl

/-- The recommendation is approve exactly when the blockers list is empty. -/
theorem simulatePolicyPatch_recommendation (policy_patch : PolicyPatchMetadata)
    (traces : List TaskTrace) :
    (simulatePolicyPatch policy_patch traces).recommendation =
      (if (simulatePolicyPatch policy_patch traces).blockers.isEmpty
       then "approve" else "reject") := rfl

/-- C2: each of the three non-negotiable constraint ids absent from the
patch's asserted ids shows up in `violated_constraints`, the
constraint-violation blocker is appended, and the recommendation is
"reject" — for every trace list and patch, hence regardless of the sign of
`projected_delta`. -/
theorem C2_missing_non_negotiable_forces_reject
    (policy_patch : PolicyPatchMetadata) (traces : List TaskTrace) (c : String)
    (hc : c ∈ NON_NEGOTIABLE_CONSTRAINTS)
    (hm : c ∉ policy_patch.asserted_constraint_ids) :
    c ∈ (simulatePolicyPatch policy_patch traces).violated_constraints ∧
    ("non-negotiable constraint violations: " ++
        String.intercalate (", ")
          (simulatePolicyPatch policy_patch traces).violated_constraints) ∈
      (simulatePolicyPatch policy_patch traces).blockers ∧
    (simulatePolicyPatch policy_patch traces).recommendation = "reject" := by
  have hv : c ∈ validateNonNegotiables policy_patch := by
    rw [validateNonNegotiables, List.mem_filter]
    refine ⟨hc, ?_⟩
    simpa using hm
  have hlen : (validateNonNegotiables policy_patch).length > 0 :=
    List.length_pos.mpr (List.ne_nil_of_mem hv)
  have hb : ("non-negotiable constraint violations: " ++
      String.intercalate (", ") (validateNonNegotiables policy_patch)) ∈
      (simulatePolicyPatch policy_patch traces).blockers := by
    rw [simulatePolicyPatch_blockers, if_pos hlen]
    simp
  refine ⟨by rw [simulatePolicyPatch_violated]; exact hv, ?_, ?_⟩
  · rw [simulatePolicyPatch_violated]
    exact hb
  · rw [simulatePolicyPatch_recommendation,
      if_neg (by simp [List.isEmpty_iff]; exact List.ne_nil_of_mem hb)]

/-- Witness for C2: a patch asserting only the save-corruption id, on empty
traces, violates the pay-to-win id and is rejected. -/
theorem C2_missing_non_negotiable_forces_reject_witness :
    "product.no_pay_to_win_drift" ∈
      (simulatePolicyPatch
        { summary := "aggressive",
          asserted_constraint_ids := ["safety.no_save_corruption"],
          objective_impacts := fun _ => none } []).violated_constraints ∧
    ("non-negotiable constraint violations: " ++
        String.intercalate (", ")
          (simulatePolicyPatch
            { summary := "aggressive",
              asserted_constraint_ids := ["safety.no_save_corruption"],
              objective_impacts := fun _ => none } []).violated_constraints) ∈
      (simulatePolicyPatch
        { summary := "aggressive",
          asserted_constraint_ids := ["safety.no_save_corruption"],
          objective_impacts := fun _ => none } []).blockers ∧
    (simulatePolicyPatch
      { summary := "aggressive",
        asserted_constraint_ids := ["safety.no_save_corruption"],
        objective_impacts := fun _ => none } []).recommendation = "reject" :=
  C2_missing_non_negotiable_forces_reject _ _ _ (by decide) (by decide)

/-- C8: empty trace history defaults every dimension baseline to 0.8; a
patch asserting all three non-negotiable ids with all-zero impacts then
scores 0.8 = 0.8 with zero delta, no blockers, no violations, and the
recommendation "approve". -/
theorem C8_empty_traces_optimistic_default :
    (∀ d, baselineDimensionScores [] d = 0.8) ∧
    (simulatePolicyPatch
      { summary := "noop",
        asserted_constraint_ids := NON_NEGOTIABLE_CONSTRAINTS,
        objective_impacts := fun _ => none } []).baseline_score = 0.8 ∧
    (simulatePolicyPatch
      { summary := "noop",
        asserted_constraint_ids := NON_NEGOTIABLE_CONSTRAINTS,
        objective_impacts := fun _ => none } []).patch_score = 0.8 ∧
    (simulatePolicyPatch
      { summary := "noop",
        asserted_constraint_ids := NON_NEGOTIABLE_CONSTRAINTS,
        objective_impacts := fun _ => none } []).projected_delta = 0 ∧
    (simulatePolicyPatch
      { summary := "noop",
        asserted_constraint_ids := NON_NEGOTIABLE_CONSTRAINTS,
        objective_impacts := fun _ => none } []).blockers = [] ∧
    (simulatePolicyPatch
      { summary := "noop",
        asserted_constraint_ids := NON_NEGOTIABLE_CONSTRAINTS,
        objective_impacts := fun _ => none } []).violated_constraints = [] ∧
    (simulatePolicyPatch
      { summary := "noop",
        asserted_constraint_ids := NON_NEGOTIABLE_CONSTRAINTS,
        objective_impacts := fun _ => none } []).recommendation = "approve" := by
  refine ⟨fun d => by simp [baselineDimensionScores], ?_⟩
  simp [simulatePolicyPatch, baselineDimensionScores, computePatchScores,
    weightedComposite, dimensionKeys, DIMENSION_WEIGHTS, clampScore, average,
    validateNonNegotiables, NON_NEGOTIABLE_CONSTRAINTS, MINIMUM_RELEASE_THRESHOLD,
    toFixed4]
  norm_num [round_eq]

/-- Rounding to 4 decimals moves a rational by at most half an ulp. -/
theorem abs_toFixed4_sub_le (x : ℚ) : |toFixed4 x - x| ≤ 1 / 20000 := by
  rw [toFixed4]
  have h : |x * 10000 - (round (x * 10000) : ℚ)| ≤ 1 / 2 := abs_sub_round (x * 10000)
  rw [abs_sub_comm] at h
  have e : ((round (x * 10000) : ℤ) : ℚ) / 10000 - x =
      (((round (x * 10000) : ℤ) : ℚ) - x * 10000) / 10000 := by ring
  rw [e, abs_div]
  have : |(10000 : ℚ)| = 10000 := by norm_num
  rw [this]
  linarith [h]

/-- The rounded difference and the difference of the rounded values agree
to within one unit in the fourth decimal place. -/
theorem toFixed4_sub_comm_bound (p b : ℚ) :
    |toFixed4 (p - b) - (toFixed4 p - toFixed4 b)| ≤ 1 / 10000 := by
  set N1 : ℤ := round ((p - b) * 10000) with hN1
  set N2 : ℤ := round (p * 10000) with hN2
  set N3 : ℤ := round (b * 10000) with hN3
  have key : toFixed4 (p - b) - (toFixed4 p - toFixed4 b) =
      ((N1 - N2 + N3 : ℤ) : ℚ) / 10000 := by
    simp only [toFixed4, ← hN1, ← hN2, ← hN3]
    push_cast
    ring
  have h1 : |((N1 : ℚ)) - (p - b) * 10000| ≤ 1 / 2 := by
    rw [abs_sub_comm]; exact abs_sub_round ((p - b) * 10000)
  have h2 : |((N2 : ℚ)) - p * 10000| ≤ 1 / 2 := by
    rw [abs_sub_comm]; exact abs_sub_round (p * 10000)
  have h3 : |((N3 : ℚ)) - b * 10000| ≤ 1 / 2 := by
    rw [abs_sub_comm]; exact abs_sub_round (b * 10000)
  have hsum : |((N1 - N2 + N3 : ℤ) : ℚ)| ≤ 3 / 2 := by
    have e : ((N1 - N2 + N3 : ℤ) : ℚ) =
        ((N1 : ℚ) - (p - b) * 10000) - ((N2 : ℚ) - p * 10000) +
          ((N3 : ℚ) - b * 10000) := by
      push_cast
      ring
    rw [e]
    calc |((N1 : ℚ) - (p - b) * 10000) - ((N2 : ℚ) - p * 10000) +
          ((N3 : ℚ) - b * 10000)|
        ≤ |((N1 : ℚ) - (p - b) * 10000) - ((N2 : ℚ) - p * 10000)| +
          |(N3 : ℚ) - b * 10000| := abs_add _ _
      _ ≤ |(N1 : ℚ) - (p - b) * 10000| + |(N2 : ℚ) - p * 10000| +
          |(N3 : ℚ) - b * 10000| := by linarith [abs_sub ((N1 : ℚ) - (p - b) * 10000) ((N2 : ℚ) - p * 10000)]
      _ ≤ 3 / 2 := by linarith
  have hint : |N1 - N2 + N3| ≤ 1 := by
    have hlt : ((|N1 - N2 + N3| : ℤ) : ℚ) < 2 := by
      rw [Int.cast_abs]
      exact lt_of_le_of_lt hsum (by norm_num)
    have : |N1 - N2 + N3| < 2 := by exact_mod_cast hlt
    omega
  rw [key, abs_div]
  have h4 : |(10000 : ℚ)| = 10000 := by norm_num
  rw [h4]
  have : |((N1 - N2 + N3 : ℤ) : ℚ)| ≤ 1 := by
    rw [← Int.cast_abs]
    exact_mod_cast hint
  linarith

/-- C5 counterexample: one concrete success trace and a +0.0001 fairness
impact give `projected_delta = 0` although the reported rounded scores are
`patch_score = 0.9554` and `baseline_score = 0.9553`, whose difference is
0.0001 — so `projected_delta` is not the difference of the rounded
composites. -/
theorem C5_counterexample_delta_not_from_rounded_scores :
    (simulatePolicyPatch
      { summary := "s",
        asserted_constraint_ids := NON_NEGOTIABLE_CONSTRAINTS,
        objective_impacts := fun d => match d with
          | .fairness => some 0.0001
          | _ => none }
      [{ trace_id := "t1", goal_id := "g1", steps := [], tool_calls := [],
         model_calls := [], latency_ms := 1000, token_cost := 1.233,
         outcome := "success" }]).projected_delta ≠
    (simulatePolicyPatch
      { summary := "s",
        asserted_constraint_ids := NON_NEGOTIABLE_CONSTRAINTS,
        objective_impacts := fun d => match d with
          | .fairness => some 0.0001
          | _ => none }
      [{ trace_id := "t1", goal_id := "g1", steps := [], tool_calls := [],
         model_calls := [], latency_ms := 1000, token_cost := 1.233,
         outcome := "success" }]).patch_score -
    (simulatePolicyPatch
      { summary := "s",
        asserted_constraint_ids := NON_NEGOTIABLE_CONSTRAINTS,
        objective_impacts := fun d => match d with
          | .fairness => some 0.0001
          | _ => none }
      [{ trace_id := "t1", goal_id := "g1", steps := [], tool_calls := [],
         model_calls := [], latency_ms := 1000, token_cost := 1.233,
         outcome := "success" }]).baseline_score := by
  simp [simulatePolicyPatch, baselineDimensionScores, computePatchScores,
    weightedComposite, dimensionKeys, DIMENSION_WEIGHTS, clampScore, average,
    validateNonNegotiables, NON_NEGOTIABLE_CONSTRAINTS, MINIMUM_RELEASE_THRESHOLD,
    toFixed4]
  norm_num [round_eq]

/-- C5 (amended): `projected_delta` is the 4-decimal rounding of the
difference of the two *unrounded* weighted composites; it therefore agrees
with the difference of the reported rounded scores only to within one unit
in the fourth decimal place. -/
theorem C5_projected_delta_rounds_unrounded_difference
    (policy_patch : PolicyPatchMetadata) (traces : List TaskTrace) :
    (simulatePolicyPatch policy_patch traces).projected_delta =
      toFixed4 (weightedComposite (computePatchScores (baselineDimensionScores traces)
          policy_patch.objective_impacts) -
        weightedComposite (baselineDimensionScores traces)) ∧
    |(simulatePolicyPatch policy_patch traces).projected_delta -
        ((simulatePolicyPatch policy_patch traces).patch_score -
          (simulatePolicyPatch policy_patch traces).baseline_score)| ≤ 1 / 10000 := by
  refine ⟨rfl, ?_⟩
  exact toFixed4_sub_comm_bound _ _

open AiAgent.GameAi

/-- The emergency-marker guard of `IsCircuitBreakerOpen` coincides with
plain file existence, since the empty path never exists. -/
theorem emergencyGuard_eq_fileExists (policy : ExecutionPolicy) (fs : List String) :
    ((policy.circuit_breakers.emergency_disable_file != "") &&
      fileExists fs policy.circuit_breakers.emergency_disable_file) =
    fileExists fs policy.circuit_breakers.emergency_disable_file := by
  cases h : (policy.circuit_breakers.emergency_disable_file != "") <;>
    simp [fileExists, h]

/-- C1 evaluation at the failing input: with a previously loaded policy
whose allow-list is `["policies/"]`, reloading a source whose single line
is `max_percent: abc` ends in the modelled `std::stoi` exception with the
freshly cleared policy (empty allow-list) in effect — the previous policy
is not retained and `false` is not returned.  The unopenable-source path,
in contrast, does return false and retain the policy. -/
theorem C1_interrupted_reload_discards_previous_policy :
    ReloadPolicy { writable_allow_prefixes := ["policies/"] } none =
      (ReloadResult.returned false, { writable_allow_prefixes := ["policies/"] }) ∧
    (ReloadPolicy { writable_allow_prefixes := ["policies/"] }
        (some ["max_percent: abc"])).1 = ReloadResult.threw ∧
    (ReloadPolicy { writable_allow_prefixes := ["policies/"] }
        (some ["max_percent: abc"])).2.writable_allow_prefixes = [] := by
  exact ⟨rfl, by decide, by decide⟩

/-- Case analysis of `IsCircuitBreakerOpen`: open iff one of the three
conditions holds, with the reason of the first tripping condition. -/
theorem isCircuitBreakerOpen_cases (policy : ExecutionPolicy)
    (fs : List String) (ledger : Option (List AuditEntry)) (regression_score : ℚ) :
    ((IsCircuitBreakerOpen policy fs ledger regression_score).isSome = true ↔
      (fileExists fs policy.circuit_breakers.emergency_disable_file = true ∨
       (CountRecentFailedDeployments ledger : Int) ≥
         policy.circuit_breakers.max_failed_deployments ∨
       regression_score > policy.circuit_breakers.max_regression_threshold)) ∧
    (fileExists fs policy.circuit_breakers.emergency_disable_file = true →
      IsCircuitBreakerOpen policy fs ledger regression_score =
        some ("autonomy disabled by local emergency switch")) ∧
    (fileExists fs policy.circuit_breakers.emergency_disable_file = false →
      (CountRecentFailedDeployments ledger : Int) ≥
        policy.circuit_breakers.max_failed_deployments →
      IsCircuitBreakerOpen policy fs ledger regression_score =
        some ("circuit breaker open: too many failed deployments")) ∧
    (fileExists fs policy.circuit_breakers.emergency_disable_file = false →
      ¬ (CountRecentFailedDeployments ledger : Int) ≥
        policy.circuit_breakers.max_failed_deployments →
      regression_score > policy.circuit_breakers.max_regression_threshold →
      IsCircuitBreakerOpen policy fs ledger regression_score =
        some ("circuit breaker open: regression threshold exceeded")) ∧
    (fileExists fs policy.circuit_breakers.emergency_disable_file = false →
      ¬ (CountRecentFailedDeployments ledger : Int) ≥
        policy.circuit_breakers.max_failed_deployments →
      ¬ regression_score > policy.circuit_breakers.max_regression_threshold →
      IsCircuitBreakerOpen policy fs ledger regression_score = none) := by
  have hg := emergencyGuard_eq_fileExists policy fs
  by_cases h1 : fileExists fs policy.circuit_breakers.emergency_disable_file = true
  · have hne : ¬ policy.circuit_breakers.emergency_disable_file = "" := by
      intro he
      rw [fileExists, he] at h1
      simp at h1
    refine ⟨?_, ?_, ?_, ?_, ?_⟩ <;>
      simp [IsCircuitBreakerOpen, hg, h1, hne]
  · have h1f : fileExists fs policy.circuit_breakers.emergency_disable_file = false := by
      simpa using h1
    by_cases h2 : (CountRecentFailedDeployments ledger : Int) ≥
        policy.circuit_breakers.max_failed_deployments
    · refine ⟨?_, ?_, ?_, ?_, ?_⟩ <;>
        simp [IsCircuitBreakerOpen, hg, h1f, h2]
    · by_cases h3 : regression_score > policy.circuit_breakers.max_regression_threshold
      · refine ⟨?_, ?_, ?_, ?_, ?_⟩ <;>
          simp [IsCircuitBreakerOpen, hg, h1f, h2, h3]
      · refine ⟨?_, ?_, ?_, ?_, ?_⟩ <;>
          simp [IsCircuitBreakerOpen, hg, h1f, h2, h3]

/-- C3: the circuit breaker is open iff the emergency marker exists, or the
whole-ledger count of failed `applied` records reaches
`max_failed_deployments`, or the caller's regression score exceeds
`max_regression_threshold`; the reason names the first condition that
trips, and with none of them holding the check reports closed (pure
recomputation from its inputs — non-sticky). -/
theorem C3_circuit_breaker_conditions (policy : ExecutionPolicy)
    (fs : List String) (ledger : Option (List AuditEntry)) (regression_score : ℚ) :
    ((IsCircuitBreakerOpen policy fs ledger regression_score).isSome = true ↔
      (fileExists fs policy.circuit_breakers.emergency_disable_file = true ∨
       (CountRecentFailedDeployments ledger : Int) ≥
         policy.circuit_breakers.max_failed_deployments ∨
       regression_score > policy.circuit_breakers.max_regression_threshold)) ∧
    (fileExists fs policy.circuit_breakers.emergency_disable_file = true →
      IsCircuitBreakerOpen policy fs ledger regression_score =
        some ("autonomy disabled by local emergency switch")) ∧
    (fileExists fs policy.circuit_breakers.emergency_disable_file = false →
      (CountRecentFailedDeployments ledger : Int) ≥
        policy.circuit_breakers.max_failed_deployments →
      IsCircuitBreakerOpen policy fs ledger regression_score =
        some ("circuit breaker open: too many failed deployments")) ∧
    (fileExists fs policy.circuit_breakers.emergency_disable_file = false →
      ¬ (CountRecentFailedDeployments ledger : Int) ≥
        policy.circuit_breakers.max_failed_deployments →
      regression_score > policy.circuit_breakers.max_regression_threshold →
      IsCircuitBreakerOpen policy fs ledger regression_score =
        some ("circuit breaker open: regression threshold exceeded")) ∧
    (fileExists fs policy.circuit_breakers.emergency_disable_file = false →
      ¬ (CountRecentFailedDeployments ledger : Int) ≥
        policy.circuit_breakers.max_failed_deployments →
      ¬ regression_score > policy.circuit_breakers.max_regression_threshold →
      IsCircuitBreakerOpen policy fs ledger regression_score = none) :=
  isCircuitBreakerOpen_cases policy fs ledger regression_score

/-- Witness for C3 at a present emergency marker: the breaker is open with
the emergency reason. -/
theorem C3_circuit_breaker_conditions_witness :
    IsCircuitBreakerOpen {} ["logs/.autonomy_disabled"] none 0 =
      some ("autonomy disabled by local emergency switch") :=
  (C3_circuit_breaker_conditions {} ["logs/.autonomy_disabled"] none 0).2.1 (by decide)

/-- C4: a touched path matching any writable deny-prefix is rejected with
the "write denied for path" reason even when it also matches an
allow-prefix (deny precedence); a path matching neither list is rejected
with "write outside allowed scope"; and `EnforceBeforePatchDeployment`
rejects whenever some touched path matches a deny-prefix. -/
theorem C4_deny_precedence_over_allow (policy : ExecutionPolicy) (path : String) :
    ((policy.writable_deny_prefixes.any fun deny => StartsWith path deny) = true →
      IsWritablePathAllowed policy path =
        .error ("write denied for path: " ++ path)) ∧
    ((policy.writable_deny_prefixes.any fun deny => StartsWith path deny) = false →
      (policy.writable_allow_prefixes.any fun allow => StartsWith path allow) = false →
      IsWritablePathAllowed policy path =
        .error ("write outside allowed scope: " ++ path)) ∧
    ((policy.writable_deny_prefixes.any fun deny => StartsWith path deny) = true →
      ∀ (touched_files : List String) (outbound_domain : Option String)
        (outbound_port requested_cpu_percent requested_ram_mb
          requested_runtime_seconds : Int) (regression_score : ℚ)
        (fs : List String) (ledger : Option (List AuditEntry)),
        path ∈ touched_files →
        (EnforceBeforePatchDeployment policy touched_files outbound_domain
          outbound_port requested_cpu_percent requested_ram_mb
          requested_runtime_seconds regression_score fs ledger).allowed = false) ∧
    ((policy.writable_deny_prefixes.any fun deny => StartsWith path deny) = true →
      ∀ (outbound_domain : Option String)
        (outbound_port requested_cpu_percent requested_ram_mb
          requested_runtime_seconds : Int) (regression_score : ℚ)
        (fs : List String) (ledger : Option (List AuditEntry)),
        EnforceBeforePatchDeployment policy [path] outbound_domain
          outbound_port requested_cpu_percent requested_ram_mb
          requested_runtime_seconds regression_score fs ledger =
        { allowed := false, reason := "write denied for path: " ++ path }) := by
  refine ⟨?_, ?_, ?_, ?_⟩
  · intro hdeny
    simp [IsWritablePathAllowed, hdeny]
  · intro hdeny hallow
    simp [IsWritablePathAllowed, hdeny, hallow]
  · intro hdeny touched_files outbound_domain outbound_port requested_cpu_percent
      requested_ram_mb requested_runtime_seconds regression_score fs ledger hmem
    rw [EnforceBeforePatchDeployment]
    cases hfind : touched_files.findSome? (fun p =>
        match IsWritablePathAllowed policy p with
        | .error r => some r
        | .ok _ => none) with
    | some r => rfl
    | none =>
      exfalso
      have hall := List.findSome?_eq_none_iff.mp hfind path hmem
      rw [show IsWritablePathAllowed policy path =
          .error ("write denied for path: " ++ path) by
        simp [IsWritablePathAllowed, hdeny]] at hall
      exact Option.noConfusion hall
  · intro hdeny outbound_domain outbound_port requested_cpu_percent
      requested_ram_mb requested_runtime_seconds regression_score fs ledger
    rw [EnforceBeforePatchDeployment]
    have hiw : IsWritablePathAllowed policy path =
        .error ("write denied for path: " ++ path) := by
      simp [IsWritablePathAllowed, hdeny]
    simp [List.findSome?, hiw]

/-- Witness for C4 on the spec's scenario 6: deny `logs/secret`, allow
`logs/`, touched path `logs/secret/x.json` is denied with the deny reason
although the allow-prefix also matches. -/
theorem C4_deny_precedence_over_allow_witness :
    IsWritablePathAllowed
      { writable_allow_prefixes := ["logs/"],
        writable_deny_prefixes := ["logs/secret"] } ("logs/secret/x.json") =
      .error ("write denied for path: " ++ "logs/secret/x.json") ∧
    EnforceBeforePatchDeployment
      { writable_allow_prefixes := ["logs/"],
        writable_deny_prefixes := ["logs/secret"] } ["logs/secret/x.json"]
      none 443 10 256 60 0 [] none =
      { allowed := false, reason := "write denied for path: " ++ "logs/secret/x.json" } :=
  ⟨(C4_deny_precedence_over_allow _ _).1 (by decide),
   (C4_deny_precedence_over_allow _ _).2.2.2 (by decide) none 443 10 256 60 0 [] none⟩

/-- C9: a completed (true-returning) reload whose parse produced no
writable allow-prefix entries installs the four default prefixes; a
successful reload never leaves an empty allow-list; and under the default
allow-list, a path under one of the four defaults that matches no
deny-prefix passes the writable-path check. -/
theorem C9_empty_allow_list_defaults (old : ExecutionPolicy)
    (lines : List String) (st : ParseState)
    (hparse : runParse lines = .ok st) :
    (st.policy.writable_allow_prefixes = [] →
      ReloadPolicy old (some lines) =
        (ReloadResult.returned true,
          { st.policy with writable_allow_prefixes := defaultWritableAllowPrefixes })) ∧
    (∀ (b : Bool) (p : ExecutionPolicy),
      ReloadPolicy old (some lines) = (ReloadResult.returned b, p) →
      b = true ∧ p.writable_allow_prefixes ≠ []) ∧
    (st.policy.writable_allow_prefixes = [] →
      ∀ path : String,
        ((st.policy.writable_deny_prefixes.any fun deny => StartsWith path deny) = false) →
        ((defaultWritableAllowPrefixes.any fun allow => StartsWith path allow) = true) →
        IsWritablePathAllowed (ReloadPolicy old (some lines)).2 path = .ok ()) := by
  have hmain : st.policy.writable_allow_prefixes = [] →
      ReloadPolicy old (some lines) =
        (ReloadResult.returned true,
          { st.policy with writable_allow_prefixes := defaultWritableAllowPrefixes }) := by
    intro hempty
    rw [ReloadPolicy, hparse]
    simp [hempty]
  refine ⟨hmain, ?_, ?_⟩
  · intro b p hrun
    by_cases hempty : st.policy.writable_allow_prefixes.isEmpty
    · have hR : ReloadPolicy old (some lines) =
          (ReloadResult.returned true,
            { st.policy with writable_allow_prefixes := defaultWritableAllowPrefixes }) := by
        rw [ReloadPolicy, hparse]
        simp [hempty]
      rw [hR] at hrun
      refine ⟨?_, ?_⟩
      · injection hrun with h1 _
        injection h1 with h
        exact h.symm
      · have hp : p = { st.policy with
            writable_allow_prefixes := defaultWritableAllowPrefixes } := by
          injection hrun with _ h2; exact h2.symm
        rw [hp]
        simp [defaultWritableAllowPrefixes]
    · have hR : ReloadPolicy old (some lines) =
          (ReloadResult.returned true, st.policy) := by
        rw [ReloadPolicy, hparse]
        simp [hempty]
      rw [hR] at hrun
      refine ⟨?_, ?_⟩
      · injection hrun with h1 _
        injection h1 with h
        exact h.symm
      · have hp : p = st.policy := by injection hrun with _ h2; exact h2.symm
        rw [hp]
        simpa [List.isEmpty_iff] using hempty
  · intro hempty path hdeny hallow
    rw [hmain hempty]
    simp [IsWritablePathAllowed, hdeny, hallow]

/-- Witness for C9: a config that only denies `logs/secret` and grants no
allow-prefixes reloads to the four defaults, and `game/ai/x.cpp` is then
writable. -/
theorem C9_empty_allow_list_defaults_witness :
    ReloadPolicy {} (some ["autonomy:", "ai_writable:", "deny:", "- logs/secret"]) =
      (ReloadResult.returned true,
        { writable_deny_prefixes := ["logs/secret"],
          writable_allow_prefixes := defaultWritableAllowPrefixes }) ∧
    IsWritablePathAllowed
      (ReloadPolicy {}
        (some ["autonomy:", "ai_writable:", "deny:", "- logs/secret"])).2
      ("game/ai/x.cpp") = .ok () := by
  have hparse : runParse ["autonomy:", "ai_writable:", "deny:", "- logs/secret"] =
      .ok { policy := { writable_deny_prefixes := ["logs/secret"] },
            context := .denyWritable, in_ai_writable := true,
            in_network_allow := false } := by rfl
  have h := C9_empty_allow_list_defaults {}
    ["autonomy:", "ai_writable:", "deny:", "- logs/secret"] _ hparse
  exact ⟨h.1 rfl, h.2.2 rfl ("game/ai/x.cpp") (by decide) (by decide)⟩

/-- C10 counterexample: with `max_failed_deployments` configured to 0 and
an unreadable ledger, the failed-deployments condition does open the
breaker (0 ≥ 0), so an unreadable ledger does not always fail closed. -/
theorem C10_counterexample_zero_threshold_opens_on_unreadable_ledger :
    IsCircuitBreakerOpen
      { circuit_breakers := { max_failed_deployments := 0 } } [] none 0 =
      some ("circuit breaker open: too many failed deployments") := by
  have h := isCircuitBreakerOpen_cases
    { circuit_breakers := { max_failed_deployments := 0 } } [] none 0
  exact h.2.2.1 (by decide) (by decide)

/-- C10 (amended): an unreadable audit log counts as 0 failed deployments,
so whenever `max_failed_deployments` is positive the failed-deployments
condition cannot open the breaker on an unreadable ledger (it fails toward
closed); with a non-positive maximum the condition holds vacuously. -/
theorem C10_unreadable_ledger_counts_zero (policy : ExecutionPolicy)
    (fs : List String) (regression_score : ℚ)
    (hpos : 0 < policy.circuit_breakers.max_failed_deployments) :
    CountRecentFailedDeployments none = 0 ∧
    IsCircuitBreakerOpen policy fs none regression_score ≠
      some ("circuit breaker open: too many failed deployments") := by
  refine ⟨rfl, ?_⟩
  have hcount : ¬ (CountRecentFailedDeployments none : Int) ≥
      policy.circuit_breakers.max_failed_deployments := by
    simp only [CountRecentFailedDeployments]
    omega
  have h := isCircuitBreakerOpen_cases policy fs none regression_score
  by_cases h1 : fileExists fs policy.circuit_breakers.emergency_disable_file = true
  · rw [h.2.1 h1]
    simp
  · have h1f : fileExists fs policy.circuit_breakers.emergency_disable_file = false := by
      simpa using h1
    by_cases h3 : regression_score > policy.circuit_breakers.max_regression_threshold
    · rw [h.2.2.2.1 h1f hcount h3]
      simp
    · rw [h.2.2.2.2 h1f hcount h3]
      simp

/-- Witness for C10 (amended) at the default configuration. -/
theorem C10_unreadable_ledger_counts_zero_witness :
    CountRecentFailedDeployments none = 0 ∧
    IsCircuitBreakerOpen {} [] none 0 ≠
      some ("circuit breaker open: too many failed deployments") :=
  C10_unreadable_ledger_counts_zero {} [] 0 (by decide)
